import Mathlib

/-!
# KohTravel — verification of spec claims against a shallow embedding

Shallow embedding of the parts of the KohTravel repository that the
claims concern:

* `agent-infrastructure/src/tools/base.py` — `Tool.validate_parameters`,
  `Tool._validate_type`, `Tool.safe_execute`
* `agent-infrastructure/src/tools/file_ops.py` — `ReadFileTool.execute`,
  `ReadFileTool._is_allowed_path`
* `agent-infrastructure/src/core/conversation.py` —
  `Conversation.get_recent_messages`
* `agent-infrastructure/src/core/streaming.py` —
  `StreamingManager.to_sse_stream`
* `agent-infrastructure/src/providers/anthropic_provider.py` —
  `AnthropicProvider._execute_tool_conversation`
* `api/routes/documents.py` — `upload_documents`
* `api/routes/calendar.py` — `create_event`, `create_suggested_event`,
  `approve_suggested_event`
* `api/routes/agent_tools.py` — `suggest_user_calendar_event`

Python dynamic values are embedded as `PyValue`; Python `isinstance`
semantics (in particular `bool` being a subclass of `int`) is embedded
explicitly.  Wall-clock values (timestamps, execution times) are taken
as parameters.  Fallible code returns `Except`.
-/

namespace KohTravel

/-- Embedding of the Python runtime values that flow through the tool
layer: the types named by `Tool._validate_type`'s `type_mapping`
(`str`, `int`, `bool`, `list`, `dict`) plus `None` and `float`, which a
caller may also pass. -/
inductive PyValue where
  | str (s : String)
  | int (n : Int)
  | bool (b : Bool)
  | float (q : ℚ)
  | list (xs : List PyValue)
  | dict (kvs : List (String × PyValue))
  | none
  deriving Repr

/-- The Python type names used in tool parameter declarations. -/
inductive PyType where
  | str | int | bool | list | dict | float | noneType
  deriving Repr, DecidableEq

/-- Python `isinstance(value, T)` for the types in `type_mapping`.
Key Python semantics embedded here: `bool` is a subclass of `int`, so
`isinstance(True, int)` is `True`; nothing else overlaps among these
types. -/
def isinstance : PyValue → PyType → Bool
  | .str _, .str => true
  | .bool _, .bool => true
  | .bool _, .int => true      -- bool is a subclass of int in Python
  | .int _, .int => true
  | .float _, .float => true
  | .list _, .list => true
  | .dict _, .dict => true
  | .none, .noneType => true
  | _, _ => false

/-- Python dict lookup `d[k]` / `d.get(k)` over our association-list
embedding of dicts (first binding wins, as later code never inserts
duplicate keys). -/
def dictGet (kvs : List (String × PyValue)) (k : String) : Option PyValue :=
  (kvs.find? (fun kv => kv.1 == k)).map (·.2)

/-- Python `d.get(k, default)`. -/
def dictGetD (kvs : List (String × PyValue)) (k : String) (d : PyValue) : PyValue :=
  (dictGet kvs k).getD d

/-- Python truthiness for the embedded values, as used by
`if not suggestion_reason:` and `feedback or "Approved"`. -/
def pyTruthy : PyValue → Bool
  | .str s => s ≠ ""
  | .int n => n ≠ 0
  | .bool b => b
  | .float q => q ≠ 0
  | .list xs => !xs.isEmpty
  | .dict kvs => !kvs.isEmpty
  | .none => false

end KohTravel

namespace KohTravel.ToolBase

/-!
## `agent-infrastructure/src/tools/base.py`
-/

open KohTravel

/-- One entry of `Tool._parameters` (class `ToolParameter`): the fields
that `get_parameters_schema` and `validate_parameters` consult.  The
`type` field is the declared JSON-schema type string; we keep it as a
`String` exactly as the source does, since `_validate_type` skips
validation for unknown type strings. -/
structure ToolParameter where
  name : String
  type : String
  required : Bool
  deriving Repr, DecidableEq

/-- `Tool._validate_type(value, expected_type)`: looks the expected
type string up in `type_mapping = {"string": str, "integer": int,
"boolean": bool, "array": list, "object": dict}`; unknown type strings
skip validation (return `True`); otherwise Python
`isinstance(value, mapped_type)`. -/
def validate_type (value : PyValue) (expected_type : String) : Bool :=
  if expected_type = "string" then isinstance value .str
  else if expected_type = "integer" then isinstance value .int
  else if expected_type = "boolean" then isinstance value .bool
  else if expected_type = "array" then isinstance value .list
  else if expected_type = "object" then isinstance value .dict
  else true

/-- `Tool.validate_parameters(parameters)`: first raises
`ValueError("Required parameter '<p>' missing")` for the first declared
required parameter absent from `parameters`; then, scanning the given
parameters in order, raises `ValueError("Parameter '<p>' has invalid
type")` for the first one that is declared and fails `_validate_type`;
otherwise returns `True`.  Raising is embedded as `Except.error` with
the exception message (`str(e)` of a `ValueError` is its message). -/
def validate_parameters (params : List ToolParameter)
    (parameters : List (String × PyValue)) : Except String Bool :=
  match params.find? (fun p => p.required && (dictGet parameters p.name).isNone) with
  | some p => .error ("Required parameter '" ++ p.name ++ "' missing")
  | Option.none =>
    match parameters.find? (fun kv =>
        match params.find? (fun p => p.name == kv.1) with
        | some p => ! validate_type kv.2 p.type
        | Option.none => false) with
    | some kv => .error ("Parameter '" ++ kv.1 ++ "' has invalid type")
    | Option.none => .ok true

/-- The `ToolResult` pydantic model, minus the wall-clock `timestamp`
default (timestamps are irrelevant to the claims about it). -/
structure ToolResult where
  success : Bool
  content : String
  error : Option String := Option.none
  metadata : List (String × PyValue) := []
  execution_time : Option ℚ := Option.none
  deriving Repr

/-- `Tool.safe_execute(parameters, context)`.  The tool body is
embedded as `execute`, an arbitrary computation that either returns a
`ToolResult` or raises (message `e`); `elapsed` is the measured
wall-clock `execution_time` (a difference of two `datetime.utcnow()`
calls, taken here as a parameter).  The source validates, runs
`execute`, stamps `execution_time` on the result and returns it; any
exception from validation or execution is converted to a failed
`ToolResult` with content `"Tool execution failed: <message>"`, error
`<message>`, the raw parameters in `metadata`, and the measured
`execution_time` — nothing propagates. -/
def safe_execute (params : List ToolParameter)
    (execute : List (String × PyValue) → Except String ToolResult)
    (parameters : List (String × PyValue)) (elapsed : ℚ) : ToolResult :=
  let attempt : Except String ToolResult := do
    let _ ← validate_parameters params parameters
    execute parameters
  match attempt with
  | .ok result => { result with execution_time := some elapsed }
  | .error e =>
    { success := false
      content := "Tool execution failed: " ++ e
      error := some e
      execution_time := some elapsed
      metadata := [("parameters", .dict parameters)] }

end KohTravel.ToolBase

namespace KohTravel

open ToolBase

/-- **C9** — Tool parameter type validation accepts a boolean for a
parameter declared `"integer"`: for every tool parameter list that
declares some parameter with type `"integer"`, calling
`validate_parameters` with that parameter bound to `True` or `False`
does not fail with the `"has invalid type"` error for that parameter,
because Python `isinstance(True, int)` holds (`bool` is a subtype of
`int`); concretely `_validate_type` returns `True` on booleans checked
against `"integer"`. -/
theorem validate_type_integer_accepts_bool (b : Bool)
    (pname : String) (params : List ToolParameter)
    (hty : ∀ p ∈ params, p.name = pname → p.type = "integer")
    (hreq : ∀ p ∈ params, p.required = true → p.name = pname) :
    validate_type (.bool b) "integer" = true ∧
    validate_parameters params [(pname, .bool b)] = .ok true := by
  constructor
  · rfl
  · unfold validate_parameters
    have hfind : params.find?
        (fun p => p.required && (dictGet [(pname, PyValue.bool b)] p.name).isNone)
        = Option.none := by
      rw [List.find?_eq_none]
      intro q hq
      by_cases hr : q.required = true
      · have hn := hreq q hq hr
        simp [hr, hn, dictGet]
      · simp at hr
        simp [hr]
    rw [hfind]
    have hfind2 : List.find? (fun kv =>
        match params.find? (fun p => p.name == kv.1) with
        | some p => ! validate_type kv.2 p.type
        | Option.none => false) [(pname, PyValue.bool b)] = Option.none := by
      rw [List.find?_eq_none]
      intro kv hkv
      simp only [List.mem_singleton] at hkv
      subst hkv
      simp only
      cases hq : params.find? (fun p => p.name == pname) with
      | none => simp
      | some q =>
        have hmem := List.mem_of_find?_eq_some hq
        have hname := List.find?_some hq
        simp only [beq_iff_eq] at hname
        have := hty q hmem hname
        simp [validate_type, this, isinstance]
    rw [hfind2]

/-- Witness for C9: a tool declaring one optional `"integer"` parameter
(the shape of `ReadFileTool`'s `max_chars`) accepts `True` for it. -/
theorem validate_type_integer_accepts_bool_witness :
    validate_type (.bool true) "integer" = true ∧
    validate_parameters [⟨"max_chars", "integer", false⟩]
      [("max_chars", .bool true)] = .ok true :=
  validate_type_integer_accepts_bool true "max_chars"
    [⟨"max_chars", "integer", false⟩] (by decide) (by decide)

/-- The failed `ToolResult` that `safe_execute` builds in its `except`
branch. -/
def failedResult (msg : String) (parameters : List (String × PyValue))
    (elapsed : ℚ) : ToolBase.ToolResult :=
  { success := false
    content := "Tool execution failed: " ++ msg
    error := some msg
    execution_time := some elapsed
    metadata := [("parameters", .dict parameters)] }

/-- **C2** — `safe_execute` never propagates an exception: its result
always carries a populated `execution_time`; if parameter validation
raises `msg`, the result is the failed `ToolResult` with
`success = false`, `content = "Tool execution failed: <msg>"`,
`error = msg`, the raw parameters in `metadata`; and likewise if
validation passes but the tool's `execute` raises `msg`.  (In the
embedding, non-propagation is the fact that `safe_execute` is a total
function into `ToolResult` whatever `Except` values `validate_parameters`
and `execute` produce.) -/
theorem safe_execute_never_throws
    (params : List ToolBase.ToolParameter)
    (execute : List (String × PyValue) → Except String ToolBase.ToolResult)
    (parameters : List (String × PyValue)) (elapsed : ℚ) :
    (ToolBase.safe_execute params execute parameters elapsed).execution_time
        = some elapsed ∧
    (∀ msg, ToolBase.validate_parameters params parameters = .error msg →
      ToolBase.safe_execute params execute parameters elapsed =
        failedResult msg parameters elapsed) ∧
    (∀ msg b, ToolBase.validate_parameters params parameters = .ok b →
      execute parameters = .error msg →
      ToolBase.safe_execute params execute parameters elapsed =
        failedResult msg parameters elapsed) := by
  refine ⟨?_, ?_, ?_⟩
  · unfold ToolBase.safe_execute
    cases hv : ToolBase.validate_parameters params parameters with
    | error e => simp [hv, Bind.bind, Except.bind]
    | ok b =>
      cases he : execute parameters with
      | error e => simp [hv, he, Bind.bind, Except.bind]
      | ok r => simp [hv, he, Bind.bind, Except.bind]
  · intro msg hv
    unfold ToolBase.safe_execute
    simp [hv, Bind.bind, Except.bind, failedResult]
  · intro msg b hv he
    unfold ToolBase.safe_execute
    simp [hv, he, Bind.bind, Except.bind, failedResult]

/-- Witness for C2: a tool with no declared parameters whose body
raises `"boom"` yields the canonical failed result through
`safe_execute`. -/
theorem safe_execute_never_throws_witness :
    ToolBase.safe_execute [] (fun _ => .error "boom") [] 1 =
      failedResult "boom" [] 1 :=
  (safe_execute_never_throws [] (fun _ => .error "boom") [] 1).2.2
    "boom" true rfl rfl

end KohTravel

namespace KohTravel.FileOps

/-!
## `agent-infrastructure/src/tools/file_ops.py`
-/

open KohTravel

/-- `os.path.abspath`, modelled as the identity: every path mentioned
by the claims (both allow-list entries and requested paths) is already
an absolute, normalized POSIX path, on which `os.path.abspath` is the
identity. -/
def abspath (p : String) : String := p

/-- Python `s.startswith(pre)`: `pre`'s character sequence is an
initial segment of `s`'s. -/
def startswith (s pre : String) : Bool :=
  pre.data.isPrefixOf s.data

/-- `ReadFileTool._is_allowed_path(file_path)` (the same code is
duplicated on `WriteFileTool` and `ListDirectoryTool`): an empty
`allowed_paths` list means no restrictions; otherwise the absolute form
of the requested path must *string-prefix-match* the absolute form of
some allowed path (`abs_path.startswith(allowed_abs)`). -/
def is_allowed_path (allowed_paths : List String) (file_path : String) : Bool :=
  if allowed_paths.isEmpty then true
  else allowed_paths.any (fun allowed =>
    startswith (abspath file_path) (abspath allowed))

/-- The filesystem as `ReadFileTool.execute` observes it: existence,
file-ness, contents and size of each path.  `execute` only consults it
after the security check passes. -/
structure FileSystem where
  pathExists : String → Bool
  isFile : String → Bool
  readContents : String → String
  size : String → Nat

/-- `ReadFileTool.execute`, after the dict destructuring
`file_path = parameters["file_path"]` and
`max_chars = parameters.get("max_chars", 10000)`.  The security check
comes first and returns the `forbidden_path` failure without touching
the filesystem; then come the `file_not_found` and `not_a_file`
failures; on success up to `max_chars` characters are read and the
result reports size and a `truncated` flag. -/
def read_file_execute (allowed_paths : List String) (fs : FileSystem)
    (file_path : String) (max_chars : Nat) : ToolBase.ToolResult :=
  if ! is_allowed_path allowed_paths file_path then
    { success := false
      content := "File path '" ++ file_path ++ "' is not allowed"
      error := some "forbidden_path" }
  else if ! fs.pathExists file_path then
    { success := false
      content := "File not found: " ++ file_path
      error := some "file_not_found" }
  else if ! fs.isFile file_path then
    { success := false
      content := "Path is not a file: " ++ file_path
      error := some "not_a_file" }
  else
    let contents := (fs.readContents file_path).take max_chars
    let truncated := decide (max_chars ≤ contents.length)
    { success := true
      content := "File read successfully. Size: " ++ toString (fs.size file_path)
          ++ " bytes" ++ (if truncated then " (truncated)" else "")
      metadata :=
        [ ("file_path", .str file_path)
        , ("content", .str contents)
        , ("file_size", .int (fs.size file_path))
        , ("truncated", .bool truncated)
        , ("chars_read", .int contents.length) ] }

end KohTravel.FileOps

namespace KohTravel

/-- **C6** — File-tool sandboxing: with `allowed_paths =
["/tmp/sandbox"]`, `ReadFileTool.execute` on `"/etc/passwd"` returns
`success = false`, `error = "forbidden_path"` for *every* filesystem
(the error branch is taken before any filesystem access, so the result
does not depend on `fs`); and with an empty allow-list the path check
passes for every path. -/
theorem read_file_forbidden_path (fs : FileOps.FileSystem) (max_chars : Nat) :
    (FileOps.read_file_execute ["/tmp/sandbox"] fs "/etc/passwd" max_chars).success
        = false ∧
    (FileOps.read_file_execute ["/tmp/sandbox"] fs "/etc/passwd" max_chars).error
        = some "forbidden_path" ∧
    (∀ p, FileOps.is_allowed_path [] p = true) := by
  have h : FileOps.is_allowed_path ["/tmp/sandbox"] "/etc/passwd" = false := by
    decide
  refine ⟨?_, ?_, fun p => rfl⟩ <;>
    simp [FileOps.read_file_execute, h]

/-- **C8** — the allow-list check is a string-prefix comparison, not
directory containment: whenever the requested path's absolute form
starts with the character string of some configured allowed path, the
check accepts it; in particular the sibling
`"/tmp/sandbox_other/secret.txt"` passes the check for
`allowed_paths = ["/tmp/sandbox"]`. -/
theorem is_allowed_path_is_string_prefix_check :
    (∀ (allowed_paths : List String) (P file_path : String),
      P ∈ allowed_paths →
      FileOps.startswith (FileOps.abspath file_path) (FileOps.abspath P) = true →
      FileOps.is_allowed_path allowed_paths file_path = true) ∧
    FileOps.is_allowed_path ["/tmp/sandbox"] "/tmp/sandbox_other/secret.txt"
        = true := by
  constructor
  · intro allowed_paths P file_path hP hpre
    unfold FileOps.is_allowed_path
    have hne : allowed_paths.isEmpty = false := by
      cases allowed_paths with
      | nil => cases hP
      | cons a l => rfl
    simp only [hne, if_neg Bool.false_ne_true, Bool.false_eq_true, if_false]
    exact List.any_eq_true.mpr ⟨P, hP, hpre⟩
  · decide

/-- Witness for C8: the general prefix-acceptance statement applied at
a second concrete sibling path. -/
theorem is_allowed_path_is_string_prefix_check_witness :
    FileOps.is_allowed_path ["/tmp/sandbox"] "/tmp/sandboxEvil" = true :=
  is_allowed_path_is_string_prefix_check.1 ["/tmp/sandbox"] "/tmp/sandbox"
    "/tmp/sandboxEvil" (by simp) (by decide)

end KohTravel

namespace KohTravel.Conversation

/-!
## `agent-infrastructure/src/core/conversation.py`
-/

/-- Python list slicing `l[s:]` (no stop, no step): a negative start is
taken from the end and clamped to the front, a non-negative start is
clamped to the length. -/
def pySliceFrom {α : Type} (l : List α) (s : Int) : List α :=
  let n : Int := l.length
  let start : Int := if s < 0 then max (n + s) 0 else min s n
  l.drop start.toNat

/-- `Conversation.get_recent_messages(limit)`: returns
`self.messages[-limit:]`.  Messages are kept abstract (`α`): the method
slices the list without inspecting the messages. -/
def get_recent_messages {α : Type} (messages : List α) (limit : Int) : List α :=
  pySliceFrom messages (-limit)

end KohTravel.Conversation

namespace KohTravel

/-- **C10** — `get_recent_messages` returns the last
`min(limit, length)` messages in order for `limit > 0` (the suffix
obtained by dropping `length - limit` from the front), but for
`limit = 0` the slice `[-0:]` is `[0:]`, i.e. the *entire* message
list, not the empty list. -/
theorem get_recent_messages_spec {α : Type} (messages : List α) (k : Nat) :
    Conversation.get_recent_messages messages 0 = messages ∧
    (0 < k →
      Conversation.get_recent_messages messages (k : Int) =
        messages.drop (messages.length - k) ∧
      (Conversation.get_recent_messages messages (k : Int)).length =
        min k messages.length) := by
  constructor
  · simp [Conversation.get_recent_messages, Conversation.pySliceFrom]
  · intro hk
    have hneg : -(k : Int) < 0 := by exact_mod_cast Int.neg_neg_of_pos (by exact_mod_cast hk)
    constructor
    · simp only [Conversation.get_recent_messages, Conversation.pySliceFrom,
        if_pos hneg]
      congr 1
      omega
    · simp only [Conversation.get_recent_messages, Conversation.pySliceFrom,
        if_pos hneg, List.length_drop]
      omega

/-- Witness for C10: on a three-message history, `limit = 2` yields the
last two messages and `limit = 0` yields all three. -/
theorem get_recent_messages_spec_witness :
    Conversation.get_recent_messages [10, 20, 30] 0 = [10, 20, 30] ∧
    Conversation.get_recent_messages [10, 20, 30] (2 : Nat) = [20, 30] :=
  ⟨(get_recent_messages_spec [10, 20, 30] 2).1,
   by
    have h := (get_recent_messages_spec [10, 20, 30] 2).2 (by decide)
    rw [h.1]; rfl⟩

end KohTravel

namespace KohTravel.Streaming

/-!
## `agent-infrastructure/src/core/streaming.py`
-/

open KohTravel

/-- The `StreamingResponse` pydantic model: a chunk `type` (one of
`"content"`, `"tool_call"`, `"tool_result"`, `"error"`, `"done"`), a
`data` payload (arbitrary Python value), and a timestamp, embedded as
its ISO string (`timestamp.isoformat()` is the only way the timestamp
is consumed by the SSE/WebSocket formatters). -/
structure StreamingResponse where
  type : String
  data : PyValue
  timestamp : String
  deriving Repr

/-- `ErrorChunk.create(error, code)`: type `"error"`, data
`{"error": error, "code": code}`; `ts` is the `datetime.utcnow()`
captured at construction. -/
def errorChunkCreate (error code ts : String) : StreamingResponse :=
  ⟨"error", .dict [("error", .str error), ("code", .str code)], ts⟩

/-- `DoneChunk.create(final_message=None)`: type `"done"`, data
`{"final_message": final_message}`. -/
def doneChunkCreate (final_message : Option String) (ts : String) :
    StreamingResponse :=
  ⟨"done",
   .dict [("final_message",
     match final_message with
     | some s => .str s
     | Option.none => .none)],
   ts⟩

/-- `StreamingResponse.to_sse_event()` (default `event="message"`):
the SSE record
`"event: message\ndata: " + json.dumps({"type": ..., "data": ...,
"timestamp": ...}) + "\n\n"`.  `json.dumps` is taken as a parameter
`dumps` on the embedded payload values. -/
def to_sse_event (dumps : PyValue → String) (r : StreamingResponse) : String :=
  "event: message\ndata: "
    ++ dumps (.dict [("type", .str r.type), ("data", r.data),
        ("timestamp", .str r.timestamp)])
    ++ "\n\n"

/-- `StreamingManager.to_sse_stream(response_generator)`.  The
upstream async generator is embedded as the list `chunks` of chunks it
yields before either finishing normally (`exn = none`) or raising an
exception with message `exn = some e`.  The `try` body re-emits one
SSE record per upstream chunk; the `except` branch emits one
`ErrorChunk` with code `"stream_error"`; the `finally` branch always
emits one trailing `DoneChunk`.  `errTs`/`doneTs` are the
`datetime.utcnow()` values captured when those two chunks are
constructed. -/
def to_sse_stream (dumps : PyValue → String) (chunks : List StreamingResponse)
    (exn : Option String) (errTs doneTs : String) : List String :=
  (chunks.map (to_sse_event dumps))
    ++ (match exn with
        | some e => [to_sse_event dumps (errorChunkCreate e "stream_error" errTs)]
        | Option.none => [])
    ++ [to_sse_event dumps (doneChunkCreate Option.none doneTs)]

end KohTravel.Streaming

namespace KohTravel

/-- **C7** — the SSE adapter: for every upstream chunk sequence and
outcome, the output has exactly one record per consumed chunk (its
first `chunks.length` records being precisely those chunks rendered as
`event: message` records carrying type, data and ISO timestamp),
followed — exactly when the upstream raised — by one record for an
error chunk with code `"stream_error"`, and in every case the very
last record is the one trailing done-chunk record. -/
theorem to_sse_stream_spec (dumps : PyValue → String)
    (chunks : List Streaming.StreamingResponse) (exn : Option String)
    (errTs doneTs : String) :
    (Streaming.to_sse_stream dumps chunks exn errTs doneTs).length
        = chunks.length + (if exn.isSome then 1 else 0) + 1 ∧
    (exn = Option.none →
      Streaming.to_sse_stream dumps chunks exn errTs doneTs
        = chunks.map (Streaming.to_sse_event dumps)
          ++ [Streaming.to_sse_event dumps
              (Streaming.doneChunkCreate Option.none doneTs)]) ∧
    (∀ e, exn = some e →
      Streaming.to_sse_stream dumps chunks exn errTs doneTs
        = chunks.map (Streaming.to_sse_event dumps)
          ++ [Streaming.to_sse_event dumps
              (Streaming.errorChunkCreate e "stream_error" errTs),
             Streaming.to_sse_event dumps
              (Streaming.doneChunkCreate Option.none doneTs)]) ∧
    (Streaming.to_sse_stream dumps chunks exn errTs doneTs).getLast?
        = some (Streaming.to_sse_event dumps
            (Streaming.doneChunkCreate Option.none doneTs)) := by
  refine ⟨?_, ?_, ?_, ?_⟩
  · cases exn <;> simp [Streaming.to_sse_stream]
  · intro he; subst he; simp [Streaming.to_sse_stream]
  · intro e he; subst he; simp [Streaming.to_sse_stream]
  · cases exn <;> simp [Streaming.to_sse_stream]

/-- Witness for C7: a one-chunk upstream that then raises `"boom"`
yields exactly the chunk's record, the `stream_error` record, and the
trailing done record. -/
theorem to_sse_stream_spec_witness :
    Streaming.to_sse_stream (fun _ => "J") [⟨"content", .none, "t0"⟩]
        (some "boom") "t1" "t2"
      = [Streaming.to_sse_event (fun _ => "J") ⟨"content", .none, "t0"⟩,
         Streaming.to_sse_event (fun _ => "J")
           (Streaming.errorChunkCreate "boom" "stream_error" "t1"),
         Streaming.to_sse_event (fun _ => "J")
           (Streaming.doneChunkCreate Option.none "t2")] :=
  (to_sse_stream_spec (fun _ => "J") [⟨"content", .none, "t0"⟩]
      (some "boom") "t1" "t2").2.2.1 "boom" rfl

end KohTravel

namespace KohTravel.Provider

/-!
## `agent-infrastructure/src/providers/anthropic_provider.py`

`AnthropicProvider._execute_tool_conversation` is embedded with the
model behind `self.client.messages.create` abstracted as a "model
double" `respond`: a function from the accumulated conversation
messages to the content blocks of the next response.  Tool execution
(`_execute_tools_parallel`, which maps `safe_execute` over the calls
and converts any stray exception into a failed `ToolResult`) is
abstracted as a total function `exec` from a tool call to its
`ToolResult`.  Chunks are the timestamp-free view of the
`streaming.py` chunk constructors: each carries exactly the fields its
`create` classmethod puts into `data`.
-/

open KohTravel

/-- A content block of a model response: `text` or `tool_use`. -/
inductive ContentBlock where
  | text (s : String)
  | toolUse (id name : String) (input : List (String × PyValue))
  deriving Repr

/-- One tool call extracted from a `tool_use` block (the dict
`{"id": ..., "name": ..., "input": ...}` the source builds). -/
structure ToolCall where
  id : String
  name : String
  input : List (String × PyValue)
  deriving Repr

/-- An item of an accumulated conversation message's `content` list:
the dicts appended as `assistant_content` / `tool_result_content`. -/
inductive MsgItem where
  | text (s : String)
  | toolUse (id name : String) (input : List (String × PyValue))
  | toolResult (tool_use_id : String) (content : String)
  deriving Repr

/-- A conversation message (`{"role": ..., "content": [...]}`). -/
structure Msg where
  role : String
  content : List MsgItem
  deriving Repr

/-- The chunks yielded by the provider, i.e. the `data` payloads of
`ContentChunk` / `ToolCallChunk` / `ToolResultChunk` / `ErrorChunk` /
`DoneChunk` (wall-clock timestamps omitted).  `toolResult` keeps the
whole `ToolResult` whose `.dict()` the source puts in the payload. -/
inductive Chunk where
  | content (text : String) (delta : Bool)
  | toolCall (name : String) (arguments : List (String × PyValue)) (id : String)
  | toolResult (result : ToolBase.ToolResult) (id : String)
  | error (msg code : String)
  | done (final_message : Option String)
  deriving Repr

/-- The chunk streamed for one response content block: text blocks
yield `ContentChunk.create(text, delta=False)`, `tool_use` blocks yield
`ToolCallChunk.create(name, input, id)`. -/
def blockChunk : ContentBlock → Chunk
  | .text s => .content s false
  | .toolUse id name input => .toolCall name input id

/-- The `tool_calls` list accumulated while scanning the response's
content blocks. -/
def toolCallsOf (blocks : List ContentBlock) : List ToolCall :=
  blocks.filterMap fun b =>
    match b with
    | .toolUse id name input => some ⟨id, name, input⟩
    | _ => Option.none

/-- The `text_content` string accumulated with `+=` over the
response's text blocks. -/
def textContentOf (blocks : List ContentBlock) : String :=
  String.join (blocks.filterMap fun b =>
    match b with
    | .text s => some s
    | _ => Option.none)

/-- The `assistant_content` items appended to the conversation for one
response. -/
def assistantItems (blocks : List ContentBlock) : List MsgItem :=
  blocks.map fun b =>
    match b with
    | .text s => MsgItem.text s
    | .toolUse id name input => MsgItem.toolUse id name input

/-- The conversation messages after one tool round: the assistant
message with the response's blocks, then the user message carrying one
`tool_result` item per call (`zip(tool_calls, tool_results)` with
`tool_results = map of exec`). -/
def nextMsgs (respond : List Msg → List ContentBlock)
    (exec : ToolCall → ToolBase.ToolResult) (msgs : List Msg) : List Msg :=
  let blocks := respond msgs
  let calls := toolCallsOf blocks
  msgs ++ [⟨"assistant", assistantItems blocks⟩]
       ++ [⟨"user", (calls.zip (calls.map exec)).map fun cr =>
            MsgItem.toolResult cr.1.id cr.2.content⟩]

/-- The chunks one tool round emits: the response's streamed blocks
(content chunks for text, tool_call chunks for `tool_use`) followed by
one matching tool_result chunk per call, in call order and carrying
the call's id. -/
def toolRoundChunks (exec : ToolCall → ToolBase.ToolResult)
    (blocks : List ContentBlock) : List Chunk :=
  blocks.map blockChunk
    ++ ((toolCallsOf blocks).zip ((toolCallsOf blocks).map exec)).map
        (fun cr => Chunk.toolResult cr.2 cr.1.id)

/-- `AnthropicProvider._execute_tool_conversation` with
`max_rounds = 3` passed as remaining-round fuel (the source's
`while round_count < max_rounds` loop runs `fuel` more iterations when
`fuel = max_rounds - round_count`).  Each iteration queries the model
double on the accumulated conversation, streams its blocks, and either
finishes with a `DoneChunk.create(text_content)` when the response used
no tools, or streams the matching tool results and loops; when the
fuel runs out the loop exits and one
`ErrorChunk.create("Conversation reached maximum rounds",
"max_rounds_exceeded")` is emitted. -/
def execute_tool_conversation (respond : List Msg → List ContentBlock)
    (exec : ToolCall → ToolBase.ToolResult) :
    List Msg → Nat → List Chunk
  | _, 0 => [.error "Conversation reached maximum rounds" "max_rounds_exceeded"]
  | msgs, fuel + 1 =>
    let blocks := respond msgs
    let calls := toolCallsOf blocks
    if calls.isEmpty then
      blocks.map blockChunk ++ [.done (some (textContentOf blocks))]
    else
      blocks.map blockChunk
        ++ (calls.zip (calls.map exec)).map
            (fun cr => Chunk.toolResult cr.2 cr.1.id)
        ++ execute_tool_conversation respond exec (nextMsgs respond exec msgs) fuel

theorem execute_tool_conversation_zero (respond exec msgs) :
    execute_tool_conversation respond exec msgs 0 =
      [.error "Conversation reached maximum rounds" "max_rounds_exceeded"] := rfl

theorem execute_tool_conversation_step_tool (respond exec msgs fuel)
    (h : toolCallsOf (respond msgs) ≠ []) :
    execute_tool_conversation respond exec msgs (fuel + 1) =
      toolRoundChunks exec (respond msgs)
        ++ execute_tool_conversation respond exec (nextMsgs respond exec msgs) fuel := by
  have hne : (toolCallsOf (respond msgs)).isEmpty = false := by
    cases hc : toolCallsOf (respond msgs) with
    | nil => exact absurd hc h
    | cons a l => rfl
  simp only [execute_tool_conversation, hne, Bool.false_eq_true, if_false,
    toolRoundChunks, List.append_assoc]

theorem execute_tool_conversation_step_done (respond exec msgs fuel)
    (h : toolCallsOf (respond msgs) = []) :
    execute_tool_conversation respond exec msgs (fuel + 1) =
      (respond msgs).map blockChunk
        ++ [.done (some (textContentOf (respond msgs)))] := by
  simp only [execute_tool_conversation, h, List.isEmpty_nil, if_true]

end KohTravel.Provider

namespace KohTravel

/-- **C1** — multi-round tool loop termination at `max_rounds = 3`.
For a model double whose response on every conversation contains at
least one `tool_use` block, the emitted stream is exactly three rounds
— each being the round's streamed response blocks followed by its
matching tool_result chunks (`toolRoundChunks`) — and then exactly one
final error chunk with code `"max_rounds_exceeded"`, with nothing
after it.  For a model double whose first response contains no
`tool_use` block, the stream is that response's content chunks (each
block being a text block) followed by exactly one done chunk, emitted
after round 1. -/
theorem execute_tool_conversation_max_rounds
    (respond : List Provider.Msg → List Provider.ContentBlock)
    (exec : Provider.ToolCall → ToolBase.ToolResult)
    (msgs0 : List Provider.Msg) :
    ((∀ m, Provider.toolCallsOf (respond m) ≠ []) →
      Provider.execute_tool_conversation respond exec msgs0 3 =
        Provider.toolRoundChunks exec (respond msgs0)
          ++ Provider.toolRoundChunks exec
              (respond (Provider.nextMsgs respond exec msgs0))
          ++ Provider.toolRoundChunks exec
              (respond (Provider.nextMsgs respond exec
                (Provider.nextMsgs respond exec msgs0)))
          ++ [.error "Conversation reached maximum rounds" "max_rounds_exceeded"]) ∧
    (Provider.toolCallsOf (respond msgs0) = [] →
      Provider.execute_tool_conversation respond exec msgs0 3 =
        (respond msgs0).map Provider.blockChunk
          ++ [.done (some (Provider.textContentOf (respond msgs0)))] ∧
      ∀ c ∈ (respond msgs0).map Provider.blockChunk,
        ∃ s, c = Provider.Chunk.content s false) := by
  constructor
  · intro h
    rw [Provider.execute_tool_conversation_step_tool respond exec msgs0 2 (h _),
      Provider.execute_tool_conversation_step_tool respond exec _ 1 (h _),
      Provider.execute_tool_conversation_step_tool respond exec _ 0 (h _),
      Provider.execute_tool_conversation_zero]
    simp [List.append_assoc]
  · intro h
    refine ⟨Provider.execute_tool_conversation_step_done respond exec msgs0 2 h, ?_⟩
    intro c hc
    rcases List.mem_map.mp hc with ⟨b, hb, hbc⟩
    cases b with
    | text s => exact ⟨s, hbc.symm⟩
    | toolUse id name input =>
      exfalso
      have : Provider.ToolCall.mk id name input ∈ Provider.toolCallsOf (respond msgs0) := by
        unfold Provider.toolCallsOf
        exact List.mem_filterMap.mpr ⟨_, hb, rfl⟩
      rw [h] at this
      exact (List.not_mem_nil _ this)

/-- Witness for C1: a double that always calls tool `"t"` streams
three identical tool rounds and then the `max_rounds_exceeded` error;
a double that always answers `"hi"` in text streams one content chunk
and one done chunk. -/
theorem execute_tool_conversation_max_rounds_witness :
    Provider.execute_tool_conversation
        (fun _ => [.toolUse "id1" "t" []])
        (fun _ => { success := true, content := "ok" }) [] 3 =
      [ .toolCall "t" [] "id1"
      , .toolResult { success := true, content := "ok" } "id1"
      , .toolCall "t" [] "id1"
      , .toolResult { success := true, content := "ok" } "id1"
      , .toolCall "t" [] "id1"
      , .toolResult { success := true, content := "ok" } "id1"
      , .error "Conversation reached maximum rounds" "max_rounds_exceeded" ] ∧
    Provider.execute_tool_conversation
        (fun _ => [.text "hi"])
        (fun _ => { success := true, content := "ok" }) [] 3 =
      [ .content "hi" false, .done (some "hi") ] := by
  constructor
  · rw [(execute_tool_conversation_max_rounds
        (fun _ => [.toolUse "id1" "t" []])
        (fun _ => { success := true, content := "ok" }) []).1
      (fun m => by simp [Provider.toolCallsOf])]
    rfl
  · rw [((execute_tool_conversation_max_rounds
        (fun _ => [.text "hi"])
        (fun _ => { success := true, content := "ok" }) []).2
      (by simp [Provider.toolCallsOf])).1]
    rfl

end KohTravel

namespace KohTravel.Documents

/-!
## `api/routes/documents.py` — `upload_documents`
-/

open KohTravel

/-- `MAX_FILE_SIZE = 4.5 * 1024 * 1024` bytes (which is exactly the
integer 4718592). -/
def MAX_FILE_SIZE : Nat := 4718592

/-- Python `s.endswith(suffix)`. -/
def endswith (s suffix : String) : Bool :=
  suffix.data.isSuffixOf s.data

/-- Python `str.lower()` restricted to ASCII (every filename the
claims exercise is ASCII). -/
def pylower (s : String) : String :=
  ⟨s.data.map fun c =>
    if 'A' ≤ c ∧ c ≤ 'Z' then Char.ofNat (c.toNat + 32) else c⟩

/-- One uploaded file as the route sees it: the multipart filename,
the byte content read by `await file.read()`, and the transport's
optional size hint `file.size`. -/
structure UploadFile where
  filename : String
  content : List Nat
  size_hint : Option Nat
  deriving Repr

/-- One `Document` row, with the columns `upload_documents` writes or
reads.  `created_at` is the wall-clock row timestamp (a parameter of
the upload step). -/
structure Document where
  id : Nat
  user_id : Nat
  title : String
  original_filename : String
  file_hash : String
  file_size : Nat
  processing_status : String
  created_at : String
  deriving Repr, DecidableEq

/-- The database plus background-task state the route threads through
the loop: the `documents` table, the scheduled processing jobs
(`background_tasks.add_task(processor.process_document_async, id,
content)`), and the id the next inserted row receives. -/
structure UploadState where
  db : List Document
  jobs : List (Nat × List Nat)
  nextId : Nat
  deriving Repr

/-- One per-file entry of the route's `uploaded_documents` response
list: the reported id, filename, `status` string, and — on the
`duplicate` branch — the id of the prior `existing_document`. -/
structure UploadEntry where
  id : Nat
  filename : String
  status : String
  existing_document : Option Nat
  deriving Repr, DecidableEq

/-- `validate_file(file)`: rejects a filename whose lowercase form
does not end in `".pdf"` (`ALLOWED_EXTENSIONS = {".pdf"}`), then
rejects a truthy size hint exceeding `MAX_FILE_SIZE`.  Raising
`HTTPException` is embedded as `Except.error` with the detail. -/
def validate_file (f : UploadFile) : Except String Unit :=
  if ! endswith (pylower f.filename) ".pdf" then
    .error "Only PDF files are allowed"
  else
    match f.size_hint with
    | some sz =>
      if sz ≠ 0 ∧ sz > MAX_FILE_SIZE then
        .error "File size exceeds maximum limit"
      else .ok ()
    | Option.none => .ok ()

/-- The duplicate-detection query
`db.query(Document).filter(Document.user_id == current_user.id,
Document.file_hash == file_hash).first()`. -/
def findDuplicate (db : List Document) (uid : Nat) (h : String) :
    Option Document :=
  db.find? (fun d => d.user_id == uid && d.file_hash == h)

/-- The body of `upload_documents`'s per-file loop, for one file:
validate; measure the read buffer against `MAX_FILE_SIZE`; hash the
content (`hashlib.sha256` is the parameter `hash`); if a document with
the same owner and hash exists, report a `"duplicate"` entry
referencing it and change nothing; otherwise insert a `Document` row
with `processing_status = "pending"` (title falling back to
`"Untitled Document"` for an empty filename), schedule one background
processing job, and report a `"pending"` entry. -/
def upload_one (hash : List Nat → String) (uid : Nat) (now : String)
    (f : UploadFile) (st : UploadState) :
    Except String (UploadState × UploadEntry) := do
  let _ ← validate_file f
  if f.content.length > MAX_FILE_SIZE then
    throw ("File " ++ f.filename ++ " exceeds maximum size limit")
  let file_hash := hash f.content
  match findDuplicate st.db uid file_hash with
  | some existing_doc =>
    pure (st, ⟨existing_doc.id, f.filename, "duplicate", some existing_doc.id⟩)
  | Option.none =>
    let document : Document :=
      { id := st.nextId
        user_id := uid
        title := if f.filename = "" then "Untitled Document" else f.filename
        original_filename := f.filename
        file_hash := file_hash
        file_size := f.content.length
        processing_status := "pending"
        created_at := now }
    pure ({ db := st.db ++ [document]
            jobs := st.jobs ++ [(st.nextId, f.content)]
            nextId := st.nextId + 1 },
          ⟨st.nextId, f.filename, "pending", Option.none⟩)

end KohTravel.Documents

namespace KohTravel

/-- Inserting a row for an (owner, hash) pair the table does not yet
contain makes the duplicate query find exactly that row. -/
theorem Documents.findDuplicate_insert (db : List Documents.Document)
    (uid : Nat) (h : String) (d : Documents.Document)
    (hfresh : Documents.findDuplicate db uid h = Option.none)
    (hu : d.user_id = uid) (hh : d.file_hash = h) :
    Documents.findDuplicate (db ++ [d]) uid h = some d := by
  unfold Documents.findDuplicate at hfresh ⊢
  rw [List.find?_append, hfresh]
  simp [hu, hh]

/-- **C3** — duplicate-document detection.  For any hash function, any
owner and any state whose table has no row for (owner, hash of the
content): uploading a valid file creates exactly one `Document` row
with `processing_status = "pending"` for that owner/hash, schedules
exactly one background job, and reports `"pending"`; immediately
re-uploading the same byte content for the same owner (under any
filename that passes validation) then reports `"duplicate"`
referencing the first document's id, leaves the table unchanged (no
second row for that owner/hash pair) and schedules no job. -/
theorem upload_duplicate_detection
    (hash : List Nat → String) (uid : Nat) (now now' : String)
    (f f' : Documents.UploadFile) (st : Documents.UploadState)
    (hv : Documents.validate_file f = .ok ())
    (hsz : f.content.length ≤ Documents.MAX_FILE_SIZE)
    (hv' : Documents.validate_file f' = .ok ())
    (hc : f'.content = f.content)
    (hfresh : Documents.findDuplicate st.db uid (hash f.content) = Option.none) :
    ∃ st1 doc,
      Documents.upload_one hash uid now f st = .ok
        (st1, ⟨st.nextId, f.filename, "pending", Option.none⟩) ∧
      st1.db = st.db ++ [doc] ∧
      doc.id = st.nextId ∧ doc.user_id = uid ∧
      doc.file_hash = hash f.content ∧
      doc.processing_status = "pending" ∧
      st1.jobs = st.jobs ++ [(st.nextId, f.content)] ∧
      Documents.upload_one hash uid now' f' st1 = .ok
        (st1, ⟨st.nextId, f'.filename, "duplicate", some st.nextId⟩) := by
  have hsz' : f'.content.length ≤ Documents.MAX_FILE_SIZE := hc ▸ hsz
  refine ⟨⟨st.db ++ [⟨st.nextId, uid,
      if f.filename = "" then "Untitled Document" else f.filename,
      f.filename, hash f.content, f.content.length, "pending", now⟩],
    st.jobs ++ [(st.nextId, f.content)], st.nextId + 1⟩,
    ⟨st.nextId, uid,
      if f.filename = "" then "Untitled Document" else f.filename,
      f.filename, hash f.content, f.content.length, "pending", now⟩,
    ?_, rfl, rfl, rfl, rfl, rfl, rfl, ?_⟩
  · unfold Documents.upload_one
    rw [hv]
    simp only [Except.bind, bind, pure]
    rw [if_neg (by omega), hfresh]
    rfl
  · unfold Documents.upload_one
    rw [hv']
    simp only [Except.bind, bind, pure]
    rw [if_neg (by omega), hc,
      Documents.findDuplicate_insert _ _ _ _ hfresh rfl rfl]
    rfl

/-- Witness for C3: uploading the two-byte content `[1, 2]` twice to
an empty table (with a hash double returning `"h"`) creates one
pending row and then reports a duplicate of it. -/
theorem upload_duplicate_detection_witness :
    ∃ st1 doc,
      Documents.upload_one (fun _ => "h") 7 "t0"
          ⟨"a.pdf", [1, 2], Option.none⟩ ⟨[], [], 0⟩ = .ok
        (st1, ⟨0, "a.pdf", "pending", Option.none⟩) ∧
      st1.db = [] ++ [doc] ∧
      doc.id = 0 ∧ doc.user_id = 7 ∧
      doc.file_hash = "h" ∧
      doc.processing_status = "pending" ∧
      st1.jobs = [] ++ [(0, [1, 2])] ∧
      Documents.upload_one (fun _ => "h") 7 "t1"
          ⟨"b.pdf", [1, 2], Option.none⟩ st1 = .ok
        (st1, ⟨0, "b.pdf", "duplicate", some 0⟩) :=
  upload_duplicate_detection (fun _ => "h") 7 "t0" "t1"
    ⟨"a.pdf", [1, 2], Option.none⟩ ⟨"b.pdf", [1, 2], Option.none⟩ ⟨[], [], 0⟩
    rfl (by decide) rfl rfl rfl

end KohTravel

namespace KohTravel.Calendar

/-!
## `api/routes/calendar.py`
-/

open KohTravel

/-- One `CalendarEvent` row, with the columns the calendar routes
write or read.  Datetimes are embedded as their ISO strings, ids as
naturals. -/
structure CalendarEvent where
  id : Nat
  user_id : Nat
  title : String
  description : Option String
  location : Option String
  start_datetime : String
  end_datetime : Option String
  all_day : Bool
  event_type : String
  color : Option String
  status : String
  notes : Option String
  document_id : Option Nat
  source : String
  suggestion_reason : Option String
  suggestion_confidence : Option Int
  suggested_by : Option String
  user_feedback : Option String
  parent_event_id : Option Nat
  deriving Repr, DecidableEq

/-- Python `x or default` on an optional string (used for
`approval_data.user_feedback or "Approved"`): the default both for
`None` and for the falsy empty string. -/
def pyOrStr (v : Option String) (d : String) : String :=
  match v with
  | some s => if s = "" then d else s
  | Option.none => d

/-- The routes' `color_map.get(event_type, "bg-gray-500")`. -/
def color_map (event_type : String) : String :=
  if event_type = "flight" then "bg-blue-500"
  else if event_type = "accommodation" then "bg-green-500"
  else if event_type = "activity" then "bg-purple-500"
  else if event_type = "transport" then "bg-cyan-500"
  else if event_type = "dining" then "bg-yellow-500"
  else if event_type = "wellness" then "bg-pink-500"
  else "bg-gray-500"

/-- The event types accepted by the pydantic `event_type` patterns and
by the agent tool's `valid_types` list. -/
def validEventTypes : List String :=
  ["flight", "accommodation", "activity", "transport", "dining", "wellness"]

/-- The `CalendarEventCreate` request model of `POST /events`
(`document_id` already parsed to an id; pydantic field constraints are
`validCreate` below). -/
structure CalendarEventCreate where
  title : String
  description : Option String := Option.none
  location : Option String := Option.none
  start_datetime : String
  end_datetime : Option String := Option.none
  all_day : Bool := false
  event_type : String
  color : Option String := Option.none
  status : String := "confirmed"
  notes : Option String := Option.none
  document_id : Option Nat := Option.none
  suggestion_reason : Option String := Option.none
  suggestion_confidence : Option Int := Option.none
  suggested_by : Option String := Option.none
  deriving Repr

/-- The pydantic validation of `CalendarEventCreate`: non-empty title
of at most 255 characters, `event_type` and `status` matching their
patterns (`status` explicitly allows `"suggested"`), and
`suggestion_confidence`, *when provided*, within `[1, 10]` —
`suggestion_reason` and `suggestion_confidence` are `Optional` with
default `None`, whatever the status. -/
def validCreate (r : CalendarEventCreate) : Bool :=
  1 ≤ r.title.length && r.title.length ≤ 255
    && validEventTypes.contains r.event_type
    && ["confirmed", "tentative", "cancelled", "suggested"].contains r.status
    && (match r.suggestion_confidence with
        | some c => 1 ≤ c && c ≤ 10
        | Option.none => true)

/-- `create_event` (`POST /events`): defaults the color from the event
type, then inserts a row copying the request's fields, with
`source = "manual"` and the request's `status` — including
`"suggested"` — and the request's (possibly `None`)
`suggestion_reason` / `suggestion_confidence` / `suggested_by`.
`newId` is the id the insert assigns. -/
def create_event (uid : Nat) (r : CalendarEventCreate) (newId : Nat) :
    CalendarEvent :=
  { id := newId
    user_id := uid
    title := r.title
    description := r.description
    location := r.location
    start_datetime := r.start_datetime
    end_datetime := r.end_datetime
    all_day := r.all_day
    event_type := r.event_type
    color := some ((r.color).getD (color_map r.event_type))
    status := r.status
    notes := r.notes
    document_id := r.document_id
    source := "manual"
    suggestion_reason := r.suggestion_reason
    suggestion_confidence := r.suggestion_confidence
    suggested_by := r.suggested_by
    user_feedback := Option.none
    parent_event_id := Option.none }

/-- The `SuggestedEventCreate` request model of `POST /events/suggest`:
`suggestion_reason` and `suggestion_confidence` are *required* here. -/
structure SuggestedEventCreate where
  title : String
  description : Option String := Option.none
  location : Option String := Option.none
  start_datetime : String
  end_datetime : Option String := Option.none
  all_day : Bool := false
  event_type : String
  color : Option String := Option.none
  notes : Option String := Option.none
  document_id : Option Nat := Option.none
  suggestion_reason : String
  suggestion_confidence : Int
  suggested_by : String := "agent"
  deriving Repr

/-- The pydantic validation of `SuggestedEventCreate`: non-empty
title, valid event type, `suggestion_reason` with `min_length = 1`,
`suggestion_confidence` in `[1, 10]`. -/
def validSuggestedCreate (r : SuggestedEventCreate) : Bool :=
  1 ≤ r.title.length && r.title.length ≤ 255
    && validEventTypes.contains r.event_type
    && 1 ≤ r.suggestion_reason.length
    && 1 ≤ r.suggestion_confidence && r.suggestion_confidence ≤ 10

/-- `create_suggested_event` (`POST /events/suggest`): inserts a row
with `status = "suggested"` always, `source = "agent"`, and the
request's required reason/confidence. -/
def create_suggested_event (uid : Nat) (r : SuggestedEventCreate)
    (newId : Nat) : CalendarEvent :=
  { id := newId
    user_id := uid
    title := r.title
    description := r.description
    location := r.location
    start_datetime := r.start_datetime
    end_datetime := r.end_datetime
    all_day := r.all_day
    event_type := r.event_type
    color := some ((r.color).getD (color_map r.event_type))
    status := "suggested"
    notes := r.notes
    document_id := r.document_id
    source := "agent"
    suggestion_reason := some r.suggestion_reason
    suggestion_confidence := some r.suggestion_confidence
    suggested_by := some r.suggested_by
    user_feedback := Option.none
    parent_event_id := Option.none }

/-- The query of `approve_suggested_event`: the caller's event with
the given id and `status == "suggested"`. -/
def findSuggested (db : List CalendarEvent) (uid event_id : Nat) :
    Option CalendarEvent :=
  db.find? (fun e =>
    e.id == event_id && e.user_id == uid && e.status == "suggested")

/-- The new confirmed event the approval branch builds from the
suggestion `e`: every descriptive field copied, `status = "confirmed"`,
`source = "approved_suggestion"`, `parent_event_id = e.id`; the
suggestion-specific fields are *not* copied (they keep their column
defaults). -/
def approvedClone (e : CalendarEvent) (newId : Nat) : CalendarEvent :=
  { id := newId
    user_id := e.user_id
    title := e.title
    description := e.description
    location := e.location
    start_datetime := e.start_datetime
    end_datetime := e.end_datetime
    all_day := e.all_day
    event_type := e.event_type
    color := e.color
    status := "confirmed"
    notes := e.notes
    document_id := e.document_id
    source := "approved_suggestion"
    suggestion_reason := Option.none
    suggestion_confidence := Option.none
    suggested_by := Option.none
    user_feedback := Option.none
    parent_event_id := some e.id }

/-- `approve_suggested_event` (`POST /events/{id}/approve`).  On
`approved = True`: adds the confirmed clone and stamps the original's
`user_feedback` (default `"Approved"`), leaving its `status` as is;
returns the new event.  On `approved = False`: stamps `user_feedback`
(default `"Rejected"`) and sets the original's `status` to
`"cancelled"`; no new event.  A missing suggestion is the 404 error.
In-place SQLAlchemy mutation of the found row is embedded as a map
over the table replacing the row with that id. -/
def approve_suggested_event (db : List CalendarEvent) (uid event_id : Nat)
    (approved : Bool) (user_feedback : Option String) (newId : Nat) :
    Except String (List CalendarEvent × CalendarEvent) :=
  match findSuggested db uid event_id with
  | Option.none => .error "Suggested event not found"
  | some event =>
    if approved then
      let approved_event := approvedClone event newId
      let stamped := { event with user_feedback := some (pyOrStr user_feedback "Approved") }
      .ok ((db.map fun d => if d.id == event.id then stamped else d) ++ [approved_event],
        approved_event)
    else
      let rejected := { event with
        user_feedback := some (pyOrStr user_feedback "Rejected")
        status := "cancelled" }
      .ok (db.map fun d => if d.id == event.id then rejected else d, rejected)

end KohTravel.Calendar

namespace KohTravel

/-- **C4** — suggestion approval round-trip.  Whenever the caller's
table holds a suggestion `e` (found by the route's
id/owner/`status == "suggested"` query), approving creates exactly one
new event — the clone with `status = "confirmed"`,
`source = "approved_suggestion"`, `parent_event_id = e.id`, and `e`'s
descriptive fields — while the original row remains in the table with
`user_feedback` stamped (default `"Approved"`) and its own `status`
still `"suggested"`; rejecting instead stamps `user_feedback` (default
`"Rejected"`), sets the original's `status` to `"cancelled"`, and
creates no new event. -/
theorem approve_suggested_event_round_trip
    (db : List Calendar.CalendarEvent) (uid event_id newId : Nat)
    (fb : Option String) (e : Calendar.CalendarEvent)
    (hfind : Calendar.findSuggested db uid event_id = some e) :
    (Calendar.approve_suggested_event db uid event_id true fb newId =
      .ok ((db.map fun d => if d.id == e.id then
              { e with user_feedback := some (Calendar.pyOrStr fb "Approved") }
            else d) ++ [Calendar.approvedClone e newId],
           Calendar.approvedClone e newId)) ∧
    ((db.map fun d => if d.id == e.id then
        { e with user_feedback := some (Calendar.pyOrStr fb "Approved") }
      else d) ++ [Calendar.approvedClone e newId]).length = db.length + 1 ∧
    (Calendar.approvedClone e newId).status = "confirmed" ∧
    (Calendar.approvedClone e newId).source = "approved_suggestion" ∧
    (Calendar.approvedClone e newId).parent_event_id = some e.id ∧
    (Calendar.approvedClone e newId).title = e.title ∧
    (Calendar.approvedClone e newId).description = e.description ∧
    (Calendar.approvedClone e newId).location = e.location ∧
    (Calendar.approvedClone e newId).start_datetime = e.start_datetime ∧
    (Calendar.approvedClone e newId).end_datetime = e.end_datetime ∧
    (Calendar.approvedClone e newId).event_type = e.event_type ∧
    { e with user_feedback := some (Calendar.pyOrStr fb "Approved") } ∈
      ((db.map fun d => if d.id == e.id then
          { e with user_feedback := some (Calendar.pyOrStr fb "Approved") }
        else d) ++ [Calendar.approvedClone e newId]) ∧
    ({ e with user_feedback := some (Calendar.pyOrStr fb "Approved")
        : Calendar.CalendarEvent }).status = "suggested" ∧
    (Calendar.approve_suggested_event db uid event_id false fb newId =
      .ok (db.map fun d => if d.id == e.id then
              { e with user_feedback := some (Calendar.pyOrStr fb "Rejected")
                       status := "cancelled" }
            else d,
           { e with user_feedback := some (Calendar.pyOrStr fb "Rejected")
                    status := "cancelled" })) ∧
    (db.map fun d => if d.id == e.id then
        { e with user_feedback := some (Calendar.pyOrStr fb "Rejected")
                 status := "cancelled" }
      else d).length = db.length := by
  have hmem : e ∈ db := List.mem_of_find?_eq_some hfind
  have hpred := List.find?_some hfind
  have hstatus : e.status = "suggested" := by
    simp only [Bool.and_eq_true, beq_iff_eq] at hpred
    exact hpred.2
  refine ⟨?_, ?_, rfl, rfl, rfl, rfl, rfl, rfl, rfl, rfl, rfl, ?_, ?_, ?_, ?_⟩
  · unfold Calendar.approve_suggested_event
    rw [hfind]
    rfl
  · simp
  · refine List.mem_append_left _ (List.mem_map.mpr ⟨e, hmem, ?_⟩)
    simp
  · simpa using hstatus
  · unfold Calendar.approve_suggested_event
    rw [hfind]
    rfl
  · simp

/-- A sample suggested event, for the C4 witness. -/
def sampleSuggestion : Calendar.CalendarEvent :=
  { id := 3
    user_id := 1
    title := "Snorkeling at Koh Tao"
    description := some "Morning boat trip"
    location := some "Koh Tao"
    start_datetime := "2025-02-01T09:00:00"
    end_datetime := some "2025-02-01T12:00:00"
    all_day := false
    event_type := "activity"
    color := some "bg-purple-500"
    status := "suggested"
    notes := Option.none
    document_id := Option.none
    source := "agent_suggested"
    suggestion_reason := some "Mentioned in the itinerary PDF"
    suggestion_confidence := some 8
    suggested_by := some "agent"
    user_feedback := Option.none
    parent_event_id := Option.none }

/-- Witness for C4: approving the sample suggestion yields the table
with the stamped original plus the confirmed clone; rejecting yields
the cancelled original only. -/
theorem approve_suggested_event_round_trip_witness :
    Calendar.approve_suggested_event [sampleSuggestion] 1 3 true Option.none 9 =
      .ok ([{ sampleSuggestion with user_feedback := some "Approved" },
            Calendar.approvedClone sampleSuggestion 9],
           Calendar.approvedClone sampleSuggestion 9) ∧
    Calendar.approve_suggested_event [sampleSuggestion] 1 3 false Option.none 9 =
      .ok ([{ sampleSuggestion with user_feedback := some "Rejected", status := "cancelled" }],
           { sampleSuggestion with user_feedback := some "Rejected", status := "cancelled" }) := by
  obtain ⟨h1, -, -, -, -, -, -, -, -, -, -, -, -, h14, -⟩ :=
    approve_suggested_event_round_trip [sampleSuggestion] 1 3 9
      Option.none sampleSuggestion rfl
  exact ⟨by rw [h1]; rfl, by rw [h14]; rfl⟩

end KohTravel

namespace KohTravel.AgentTools

/-!
## `api/routes/agent_tools.py` — `suggest_user_calendar_event`
-/

open KohTravel

/-- Python `str(v)` as the persistence layer sees tool-parameter
values: a string is itself; any other value is stored via its textual
form (the claims only exercise string-typed parameters). -/
def pyStr : PyValue → String
  | .str s => s
  | v => reprStr v

/-- The integer the SQLAlchemy `Integer` column stores for a value
that passed the `isinstance(…, int)` check: the int itself, or the
Python `bool` subclass's numeric value. -/
def pyInt : PyValue → Int
  | .int n => n
  | .bool b => if b then 1 else 0
  | _ => 0

/-- A nullable text column's stored value for a `.get(...)` result:
`NULL` for Python `None`, the textual value otherwise. -/
def optStr : PyValue → Option String
  | .none => Option.none
  | v => some (pyStr v)

/-- The outcome of the tool endpoint: a failed `ToolResponse` with its
`content` and `error` code, or a successful one carrying the persisted
suggested event. -/
inductive SuggestOutcome where
  | failure (content error : String)
  | success (event : Calendar.CalendarEvent)
  deriving Repr

/-- The suggested `CalendarEvent` the endpoint persists once all
checks pass: `status = "suggested"` always, `source =
"agent_suggested"`, `suggested_by = "agent"`, reason and confidence
from the checked parameters, color defaulting from the event type. -/
def mkSuggested (uid newId : Nat) (params : List (String × PyValue))
    (event_type : PyValue) (start_dt : String) (end_dt : Option String)
    (reason confidence : PyValue) : Calendar.CalendarEvent :=
  { id := newId
    user_id := uid
    title := pyStr (dictGetD params "title" .none)
    description := optStr (dictGetD params "description" .none)
    location := optStr (dictGetD params "location" .none)
    start_datetime := start_dt
    end_datetime := end_dt
    all_day := pyTruthy (dictGetD params "all_day" (.bool false))
    event_type := pyStr event_type
    color := some (pyStr (dictGetD params "color"
        (.str (Calendar.color_map (pyStr event_type)))))
    status := "suggested"
    notes := optStr (dictGetD params "notes" .none)
    document_id := Option.none
    source := "agent_suggested"
    suggestion_reason := some (pyStr reason)
    suggestion_confidence := some (pyInt confidence)
    suggested_by := some "agent"
    user_feedback := Option.none
    parent_event_id := Option.none }

/-- `suggest_user_calendar_event` (`POST /suggest_calendar_event`),
after user resolution.  In source order: a falsy `title` fails with
`missing_title`; a falsy `start_datetime` with
`missing_start_datetime`; a falsy `suggestion_reason` with
`missing_suggestion_reason` (a hard failure); an `event_type` outside
`valid_types` with `invalid_event_type`; a `suggestion_confidence`
(default `7`) failing `isinstance(…, int)` or the `[1, 10]` range with
`invalid_confidence`; an unparsable `start_datetime` (ISO parsing is
the parameter `parseIso`) with `invalid_datetime_format`, likewise a
truthy unparsable `end_datetime`; otherwise the suggested event is
persisted.  A non-string datetime reaching `.replace` raises inside
the outer `try`, whose `except` returns a generic failed
`ToolResponse` (its content is the exception text; the fixed strings
here stand for it, no claim depends on them). -/
def suggest_user_calendar_event (parseIso : String → Option String)
    (uid : Nat) (params : List (String × PyValue)) (newId : Nat) :
    SuggestOutcome :=
  let title := dictGetD params "title" .none
  let start_datetime := dictGetD params "start_datetime" .none
  let event_type := dictGetD params "event_type" (.str "activity")
  let suggestion_reason := dictGetD params "suggestion_reason" .none
  let suggestion_confidence := dictGetD params "suggestion_confidence" (.int 7)
  if ! pyTruthy title then
    .failure "Event title is required" "missing_title"
  else if ! pyTruthy start_datetime then
    .failure "Event start_datetime is required" "missing_start_datetime"
  else if ! pyTruthy suggestion_reason then
    .failure "Suggestion reason is required for suggested events"
      "missing_suggestion_reason"
  else if ! (match event_type with
             | .str s => Calendar.validEventTypes.contains s
             | _ => false) then
    .failure ("Invalid event_type '" ++ pyStr event_type ++ "'")
      "invalid_event_type"
  else if ! (isinstance suggestion_confidence .int
             && (1 ≤ pyInt suggestion_confidence
                 && pyInt suggestion_confidence ≤ 10)) then
    .failure "Suggestion confidence must be an integer between 1 and 10"
      "invalid_confidence"
  else
    match start_datetime with
    | .str s =>
      match parseIso s with
      | Option.none =>
        .failure ("Invalid start_datetime format: " ++ s)
          "invalid_datetime_format"
      | some start_dt =>
        let endv := dictGetD params "end_datetime" .none
        if pyTruthy endv then
          match endv with
          | .str es =>
            match parseIso es with
            | Option.none =>
              .failure ("Invalid end_datetime format: " ++ es)
                "invalid_datetime_format"
            | some end_dt =>
              .success (mkSuggested uid newId params event_type start_dt
                (some end_dt) suggestion_reason suggestion_confidence)
          | _ =>
            .failure "Failed to suggest calendar event: unexpected exception"
              "exception"
        else
          .success (mkSuggested uid newId params event_type start_dt
            Option.none suggestion_reason suggestion_confidence)
    | _ =>
      .failure "Failed to suggest calendar event: unexpected exception"
        "exception"

end KohTravel.AgentTools

namespace KohTravel

/-- A `POST /events` request that passes the pydantic validation of
`CalendarEventCreate` while asking for `status = "suggested"` with no
suggestion reason and no confidence. -/
def noReasonSuggestedReq : Calendar.CalendarEventCreate :=
  { title := "Dinner"
    start_datetime := "2025-02-01T19:00:00"
    event_type := "dining"
    status := "suggested" }

/-- Counterexample to C5: the generic `POST /events` route accepts
`status = "suggested"` (its pydantic `status` pattern includes it)
while `suggestion_reason` and `suggestion_confidence` are optional
with default `None`; so a valid request reaches the database as an
event with `status = "suggested"`, no suggestion reason and no
confidence — the claimed invariant fails on an API-reachable state. -/
theorem suggested_event_without_reason_reachable :
    Calendar.validCreate noReasonSuggestedReq = true ∧
    (Calendar.create_event 1 noReasonSuggestedReq 11).status = "suggested" ∧
    (Calendar.create_event 1 noReasonSuggestedReq 11).suggestion_reason
        = Option.none ∧
    (Calendar.create_event 1 noReasonSuggestedReq 11).suggestion_confidence
        = Option.none :=
  ⟨by decide, rfl, rfl, rfl⟩

/-- **C5 (amended)** — the two *suggestion* paths enforce the
invariant, the generic create route does not.  (a) On the
`suggest_calendar_event` tool, a missing or empty `suggestion_reason`
(with title and start present) is the hard failure
`missing_suggestion_reason`.  (b) Every event the tool successfully
persists has `status = "suggested"`, `source = "agent_suggested"`,
`suggested_by = "agent"`, a confidence in `[1, 10]`, and — whenever
the supplied reason is a string, the only case the system exercises —
that non-empty string as its reason.  (c) Every event
`POST /api/calendar/events/suggest` persists from a valid
`SuggestedEventCreate` has `status = "suggested"`, the request's
non-empty reason, and its confidence in `[1, 10]`.  (The claim's
universal form over *all* event-creating routes fails:
`POST /api/calendar/events` also accepts `status = "suggested"`
without a reason, see the counterexample.) -/
theorem suggested_event_invariant_amended
    (parseIso : String → Option String) (uid newId : Nat)
    (params : List (String × PyValue)) :
    (pyTruthy (dictGetD params "title" .none) = true →
     pyTruthy (dictGetD params "start_datetime" .none) = true →
     pyTruthy (dictGetD params "suggestion_reason" .none) = false →
     AgentTools.suggest_user_calendar_event parseIso uid params newId =
       .failure "Suggestion reason is required for suggested events"
         "missing_suggestion_reason") ∧
    (∀ ev, AgentTools.suggest_user_calendar_event parseIso uid params newId
        = .success ev →
      ev.status = "suggested" ∧
      ev.source = "agent_suggested" ∧
      ev.suggested_by = some "agent" ∧
      (∀ r, dictGetD params "suggestion_reason" .none = .str r →
        ev.suggestion_reason = some r ∧ r ≠ "") ∧
      (∀ c, ev.suggestion_confidence = some c → 1 ≤ c ∧ c ≤ 10)) ∧
    (∀ r : Calendar.SuggestedEventCreate,
      Calendar.validSuggestedCreate r = true →
      (Calendar.create_suggested_event uid r newId).status = "suggested" ∧
      (Calendar.create_suggested_event uid r newId).suggestion_reason
          = some r.suggestion_reason ∧
      r.suggestion_reason ≠ "" ∧
      (Calendar.create_suggested_event uid r newId).suggestion_confidence
          = some r.suggestion_confidence ∧
      1 ≤ r.suggestion_confidence ∧ r.suggestion_confidence ≤ 10) := by
  refine ⟨?_, ?_, ?_⟩
  · intro h1 h2 h3
    unfold AgentTools.suggest_user_calendar_event
    simp only [h1, h2, h3, Bool.not_true, Bool.not_false, Bool.false_eq_true,
      if_false, if_true]
  · intro ev h
    unfold AgentTools.suggest_user_calendar_event at h
    simp only [] at h
    split at h
    · exact absurd h (by simp)
    split at h
    · exact absurd h (by simp)
    split at h
    · exact absurd h (by simp)
    split at h
    · exact absurd h (by simp)
    split at h
    · exact absurd h (by simp)
    rename_i hTitle hStart hReason hType hConf
    split at h
    case _ s heq =>
      split at h
      · exact absurd h (by simp)
      case _ start_dt hparse =>
        have hReasonT : pyTruthy (dictGetD params "suggestion_reason" .none)
            = true := by
          revert hReason
          cases pyTruthy (dictGetD params "suggestion_reason" .none) <;> simp
        have hConfB : (isinstance (dictGetD params "suggestion_confidence"
              (.int 7)) .int
            && (1 ≤ AgentTools.pyInt (dictGetD params "suggestion_confidence"
                  (.int 7))
                && AgentTools.pyInt (dictGetD params "suggestion_confidence"
                  (.int 7)) ≤ 10)) = true := by
          revert hConf
          cases hb : (isinstance (dictGetD params "suggestion_confidence"
              (.int 7)) .int
            && (1 ≤ AgentTools.pyInt (dictGetD params "suggestion_confidence"
                  (.int 7))
                && AgentTools.pyInt (dictGetD params "suggestion_confidence"
                  (.int 7)) ≤ 10)) <;> simp
        have hev : ev.status = "suggested" ∧ ev.source = "agent_suggested" ∧
            ev.suggested_by = some "agent" ∧
            ev.suggestion_reason = some (AgentTools.pyStr
              (dictGetD params "suggestion_reason" .none)) ∧
            ev.suggestion_confidence = some (AgentTools.pyInt
              (dictGetD params "suggestion_confidence" (.int 7))) := by
          split at h
          · split at h
            · split at h
              · exact absurd h (by simp)
              · cases h
                exact ⟨rfl, rfl, rfl, rfl, rfl⟩
            · exact absurd h (by simp)
          · cases h
            exact ⟨rfl, rfl, rfl, rfl, rfl⟩
        refine ⟨hev.1, hev.2.1, hev.2.2.1, ?_, ?_⟩
        · intro r hr
          rw [hr] at hev hReasonT
          refine ⟨hev.2.2.2.1, ?_⟩
          simpa [pyTruthy] using hReasonT
        · intro c hc
          rw [hev.2.2.2.2] at hc
          simp only [Option.some.injEq] at hc
          subst hc
          simp only [Bool.and_eq_true, decide_eq_true_eq] at hConfB
          exact hConfB.2
    · exact absurd h (by simp)
  · intro r hr
    simp only [Calendar.validSuggestedCreate, Bool.and_eq_true,
      decide_eq_true_eq] at hr
    refine ⟨rfl, rfl, ?_, rfl, hr.1.2, hr.2⟩
    intro he
    have := hr.1.1.2
    rw [he] at this
    simp at this

end KohTravel

namespace KohTravel

/-- Concrete parameters for the C5 witness: a tool call with a string
reason and confidence 9. -/
def sampleToolParams : List (String × PyValue) :=
  [("title", .str "Temple tour"),
   ("start_datetime", .str "2025-02-02T10:00:00"),
   ("suggestion_reason", .str "From the itinerary"),
   ("suggestion_confidence", .int 9)]

/-- A concrete valid `POST /events/suggest` request for the C5
witness. -/
def sampleSuggestedReq : Calendar.SuggestedEventCreate :=
  { title := "Beach day"
    start_datetime := "2025-02-03T09:00:00"
    event_type := "activity"
    suggestion_reason := "Free morning in the plan"
    suggestion_confidence := 6 }

/-- Witness for the amended C5: a reasonless tool call fails with
`missing_suggestion_reason`; the sample tool call's persisted event
carries its non-empty reason; the sample suggest-endpoint event is
suggested with a non-empty reason. -/
theorem suggested_event_invariant_amended_witness :
    AgentTools.suggest_user_calendar_event some 1
        [("title", PyValue.str "T"), ("start_datetime", PyValue.str "D")] 5 =
      .failure "Suggestion reason is required for suggested events"
        "missing_suggestion_reason" ∧
    (AgentTools.mkSuggested 1 5 sampleToolParams (.str "activity")
        "2025-02-02T10:00:00" Option.none (.str "From the itinerary")
        (.int 9)).suggestion_reason = some "From the itinerary" ∧
    "From the itinerary" ≠ "" ∧
    (Calendar.create_suggested_event 1 sampleSuggestedReq 5).status
        = "suggested" ∧
    sampleSuggestedReq.suggestion_reason ≠ "" := by
  have ha := (suggested_event_invariant_amended some 1 5
    [("title", PyValue.str "T"), ("start_datetime", PyValue.str "D")]).1
    rfl rfl rfl
  have hb := ((suggested_event_invariant_amended some 1 5 sampleToolParams).2.1
    (AgentTools.mkSuggested 1 5 sampleToolParams (.str "activity")
      "2025-02-02T10:00:00" Option.none (.str "From the itinerary")
      (.int 9)) rfl).2.2.2.1 "From the itinerary" rfl
  have hc := (suggested_event_invariant_amended some 1 5
    sampleToolParams).2.2 sampleSuggestedReq (by decide)
  exact ⟨ha, hb.1, hb.2, hc.1, hc.2.2.1⟩

end KohTravel
